import Mathlib

/-!
Shallow embedding of the DealHawk deal-scoring and pricing engine
(`backend/services/deal_scorer.py`, `pricing_service.py`,
`negotiation_service.py`, `section179_service.py`, and the reference tables
under `backend/config/`), together with proofs about the specification's
testable properties.

Python floats are modelled as rationals.  Python's `round` builtin
(round-half-to-even) is modelled by `pyRound`; `round(x, 2)` by `round2`,
`round(x, 1)` by `round1`.
-/

namespace DealHawk

/-- Python `round(x)`: nearest integer, ties go to the even integer. -/
def pyRound (x : ℚ) : ℤ :=
  if x - ⌊x⌋ < 1/2 then ⌊x⌋
  else if 1/2 < x - ⌊x⌋ then ⌊x⌋ + 1
  else if ⌊x⌋ % 2 = 0 then ⌊x⌋ else ⌊x⌋ + 1

/-- Python `round(x, 2)` (rounding a dollar amount to whole cents). -/
def round2 (x : ℚ) : ℚ := (pyRound (x * 100) : ℚ) / 100

/-- Python `round(x, 1)`. -/
def round1 (x : ℚ) : ℚ := (pyRound (x * 10) : ℚ) / 10

theorem pyRound_ge_floor (x : ℚ) : ⌊x⌋ ≤ pyRound x := by
  unfold pyRound
  split
  · exact le_refl _
  · split
    · omega
    · split <;> omega

theorem pyRound_le_floor_add_one (x : ℚ) : pyRound x ≤ ⌊x⌋ + 1 := by
  unfold pyRound
  split
  · omega
  · split
    · exact le_refl _
    · split <;> omega

theorem pyRound_intCast (n : ℤ) : pyRound (n : ℚ) = n := by
  unfold pyRound
  rw [Int.floor_intCast]
  norm_num

theorem pyRound_le (x : ℚ) : (pyRound x : ℚ) ≤ x + 1/2 := by
  have hf := Int.floor_le x
  unfold pyRound
  split <;> rename_i h1
  · linarith
  · split <;> rename_i h2
    · push_cast
      linarith
    · split <;> push_cast <;> linarith

theorem le_pyRound (x : ℚ) : x - 1/2 ≤ (pyRound x : ℚ) := by
  have hc := Int.lt_floor_add_one x
  unfold pyRound
  split <;> rename_i h1
  · linarith
  · split <;> rename_i h2
    · push_cast
      linarith
    · split <;> push_cast <;> linarith

theorem int_le_pyRound {k : ℤ} {x : ℚ} (h : (k : ℚ) ≤ x) : k ≤ pyRound x := by
  have h1 : k ≤ ⌊x⌋ := Int.le_floor.mpr h
  have h2 := pyRound_ge_floor x
  omega

theorem pyRound_le_of_le_int {k : ℤ} {x : ℚ} (h : x ≤ (k : ℚ)) (hx : x ≠ (k : ℚ)) :
    pyRound x ≤ k := by
  have h1 : ⌊x⌋ ≤ k := Int.floor_le_floor (le_of_lt (lt_of_le_of_ne h hx)) |>.trans_eq
    (Int.floor_intCast k)
  have h2 : x < (k : ℚ) := lt_of_le_of_ne h hx
  have h3 : ⌊x⌋ < k ∨ ⌊x⌋ = k := lt_or_eq_of_le h1
  rcases h3 with h3 | h3
  · have := pyRound_le_floor_add_one x
    omega
  · -- x < k and ⌊x⌋ = k would force x = k, impossible: in fact ⌊x⌋ ≤ x < k
    have := Int.floor_le x
    rw [h3] at this
    exact absurd (lt_of_le_of_lt this h2) (lt_irrefl _)

theorem round2_int_div (k : ℤ) : round2 ((k : ℚ) / 100) = (k : ℚ) / 100 := by
  unfold round2
  have h : (k : ℚ) / 100 * 100 = (k : ℚ) := by ring
  rw [h, pyRound_intCast]

theorem round2_int (n : ℤ) : round2 (n : ℚ) = n := by
  unfold round2
  have h : (n : ℚ) * 100 = ((100 * n : ℤ) : ℚ) := by
    push_cast
    ring
  rw [h, pyRound_intCast]
  push_cast
  ring

theorem round2_le (x : ℚ) : round2 x ≤ x + 1/200 := by
  unfold round2
  have h := pyRound_le (x * 100)
  linarith

theorem le_round2 (x : ℚ) : x - 1/200 ≤ round2 x := by
  unfold round2
  have h := le_pyRound (x * 100)
  linarith

theorem abs_round2_sub_le (x : ℚ) : |round2 x - x| ≤ 1/200 := by
  rw [abs_le]
  constructor
  · have := le_round2 x
    linarith
  · have := round2_le x
    linarith

theorem round2_ge_cent {k : ℤ} {x : ℚ} (h : (k : ℚ) / 100 ≤ x) :
    (k : ℚ) / 100 ≤ round2 x := by
  unfold round2
  have h1 : (k : ℚ) ≤ x * 100 := by linarith
  have h2 : k ≤ pyRound (x * 100) := int_le_pyRound h1
  have h3 : (k : ℚ) ≤ (pyRound (x * 100) : ℚ) := by exact_mod_cast h2
  linarith

/-- First value for a key in an association list (Python `dict.get`).
Python dicts preserve insertion order, which `List.find?` respects. -/
def lookupStr {α : Type} (table : List (String × α)) (key : String) : Option α :=
  (table.find? (fun p => p.1 == key)).map (fun p => p.2)

/-- Python's substring test `sub in s` on lists of characters. -/
def listContainsSub (sub : List Char) : List Char → Bool
  | [] => sub.isEmpty
  | c :: t => sub.isPrefixOf (c :: t) || listContainsSub sub t

/-- Python's `sub in s` for strings. -/
def strContains (s sub : String) : Bool := listContainsSub sub.data s.data

/-! ## Reference tables (`backend/config/holdback_rates.py`, `invoice_ranges.py`) -/

/-- Entry of `HOLDBACK_RATES`: holdback percentage and what it is based on. -/
structure HoldbackInfo where
  rate : ℚ
  basis : String

/-- `HOLDBACK_RATES`: holdback rate by manufacturer. -/
def HOLDBACK_RATES : List (String × HoldbackInfo) :=
  [("Ram", ⟨3/100, "msrp"⟩),
   ("Dodge", ⟨3/100, "msrp"⟩),
   ("Jeep", ⟨3/100, "msrp"⟩),
   ("Chrysler", ⟨3/100, "msrp"⟩),
   ("Ford", ⟨3/100, "msrp"⟩),
   ("Lincoln", ⟨2/100, "msrp"⟩),
   ("Chevrolet", ⟨3/100, "invoice"⟩),
   ("GMC", ⟨3/100, "invoice"⟩),
   ("Buick", ⟨3/100, "invoice"⟩),
   ("Cadillac", ⟨3/100, "invoice"⟩),
   ("Toyota", ⟨2/100, "msrp"⟩),
   ("Nissan", ⟨3/100, "invoice"⟩),
   ("Honda", ⟨2/100, "msrp"⟩),
   ("Hyundai", ⟨2/100, "invoice"⟩),
   ("Kia", ⟨2/100, "invoice"⟩)]

/-- `get_holdback`: holdback amount for a given make and pricing. -/
def get_holdback (make : String) (msrp invoice : ℚ) : ℚ :=
  let info := (lookupStr HOLDBACK_RATES make).getD ⟨2/100, "msrp"⟩
  let basis_value := if info.basis == "msrp" then msrp else invoice
  round2 (basis_value * info.rate)

/-- Entry of `INVOICE_RATIOS`: invoice as a fraction of MSRP per trim tier. -/
structure RatioTiers where
  base : ℚ
  mid : ℚ
  high : ℚ

/-- `INVOICE_RATIOS`: invoice-to-MSRP ratios keyed by "Make Model". -/
def INVOICE_RATIOS : List (String × RatioTiers) :=
  [("Ford F-150", ⟨93/100, 91/100, 89/100⟩),
   ("Ford F-250", ⟨93/100, 91/100, 89/100⟩),
   ("Ford F-350", ⟨93/100, 91/100, 88/100⟩),
   ("Ford F-450", ⟨92/100, 90/100, 88/100⟩),
   ("Ram 1500", ⟨92/100, 90/100, 88/100⟩),
   ("Ram 2500", ⟨92/100, 90/100, 88/100⟩),
   ("Ram 3500", ⟨92/100, 90/100, 87/100⟩),
   ("Chevrolet Silverado 1500", ⟨93/100, 91/100, 89/100⟩),
   ("Chevrolet Silverado 2500HD", ⟨92/100, 90/100, 88/100⟩),
   ("Chevrolet Silverado 3500HD", ⟨92/100, 90/100, 87/100⟩),
   ("GMC Sierra 1500", ⟨92/100, 90/100, 88/100⟩),
   ("GMC Sierra 2500HD", ⟨92/100, 90/100, 88/100⟩),
   ("GMC Sierra 3500HD", ⟨92/100, 90/100, 87/100⟩),
   ("Toyota Tundra", ⟨94/100, 92/100, 91/100⟩),
   ("Toyota Tacoma", ⟨95/100, 93/100, 92/100⟩),
   ("Nissan Titan", ⟨92/100, 90/100, 88/100⟩),
   ("Nissan Frontier", ⟨94/100, 92/100, 90/100⟩)]

/-- Default invoice ratio when a vehicle has no specific data. -/
def DEFAULT_INVOICE_RATIO : ℚ := 92/100

/-- Entry of `TRIM_THRESHOLDS`: MSRP boundaries for trim classification. -/
structure TrimThresholds where
  base_max : ℚ
  high_min : ℚ

/-- `TRIM_THRESHOLDS`: MSRP ranges for trim classification by model. -/
def TRIM_THRESHOLDS : List (String × TrimThresholds) :=
  [("F-150", ⟨42000, 65000⟩),
   ("F-250", ⟨50000, 75000⟩),
   ("F-350", ⟨52000, 80000⟩),
   ("Ram 1500", ⟨42000, 60000⟩),
   ("Ram 2500", ⟨48000, 72000⟩),
   ("Ram 3500", ⟨50000, 78000⟩),
   ("Silverado 1500", ⟨42000, 62000⟩),
   ("Silverado 2500HD", ⟨48000, 72000⟩),
   ("Sierra 1500", ⟨44000, 65000⟩),
   ("Sierra 2500HD", ⟨50000, 75000⟩)]

/-- `estimate_invoice`: invoice price from MSRP using known ratios.
Python's `INVOICE_RATIOS.get(f"{make} {model}") or INVOICE_RATIOS.get(model)`
falls through to the bare-model key when the combined key is absent (the
values are non-empty dicts, hence always truthy). -/
def estimate_invoice (make model : String) (msrp : ℚ) : ℚ :=
  let ratios := (lookupStr INVOICE_RATIOS (make ++ " " ++ model)).orElse
    (fun _ => lookupStr INVOICE_RATIOS model)
  match ratios with
  | some r =>
      let t := (lookupStr TRIM_THRESHOLDS model).getD ⟨45000, 70000⟩
      let ratio := if msrp ≤ t.base_max then r.base
                   else if t.high_min ≤ msrp then r.high
                   else r.mid
      round2 (msrp * ratio)
  | none => round2 (msrp * DEFAULT_INVOICE_RATIO)

/-! ## Pricing service (`backend/services/pricing_service.py`) -/

/-- Row of the `InvoicePriceCache` table found by the caller-side database
lookup (the external collaborator of the core).  `holdback_amount` is a
nullable column, hence optional. -/
structure CachedInvoice where
  invoice_price : ℚ
  holdback_amount : Option ℚ

/-- Result dictionary of `get_pricing`. -/
structure PricingResult where
  msrp : ℚ
  invoice_price : ℚ
  holdback : ℚ
  dealer_cash : ℚ
  true_dealer_cost : ℚ
  margin_from_msrp : ℚ
  margin_pct : ℚ
  source : String
deriving DecidableEq, Repr

/-- `get_pricing`: look up or estimate the true dealer cost for a vehicle.
The `db` query of the Python source is an external effect; its outcome is
passed in as `cached` (`none` both when no session is given and when the
query finds no row).  `year` and `trim` only feed that query. -/
def get_pricing (year : ℤ) (make model : String) (msrp : ℚ)
    (trim : Option String) (dealer_cash : ℚ)
    (cached : Option CachedInvoice) : PricingResult :=
  let invoice0 : Option ℚ := cached.map (fun c => c.invoice_price)
  let holdback0 : Option ℚ := cached.bind (fun c => c.holdback_amount)
  let source := if cached.isSome then "cached" else "estimated"
  let invoice := invoice0.getD (estimate_invoice make model msrp)
  let holdback_amount := holdback0.getD (get_holdback make msrp invoice)
  let true_cost := invoice - holdback_amount - dealer_cash
  let margin := msrp - true_cost
  let margin_pct := if 0 < msrp then margin / msrp * 100 else 0
  { msrp := msrp
    invoice_price := round2 invoice
    holdback := round2 holdback_amount
    dealer_cash := dealer_cash
    true_dealer_cost := round2 true_cost
    margin_from_msrp := round2 margin
    margin_pct := round1 margin_pct
    source := source }

/-! ## Deal scorer (`backend/services/deal_scorer.py`) -/

/-- Industry average days supply. -/
def INDUSTRY_AVG_DAYS_SUPPLY : ℚ := 76

/-- `MODEL_DAYS_SUPPLY`: known days supply by model. -/
def MODEL_DAYS_SUPPLY : List (String × ℚ) :=
  [("Ram 3500", 342),
   ("Ram 2500", 318),
   ("Ram 1500", 120),
   ("F-150", 100),
   ("F-250", 90),
   ("F-350", 85),
   ("F-450", 60),
   ("Sierra 1500", 85),
   ("Sierra 2500HD", 80),
   ("Silverado 1500", 85),
   ("Silverado 2500HD", 80),
   ("Tundra", 33),
   ("Tacoma", 30)]

/-- Floor plan carrying cost per day (7.90 dollars). -/
def CARRYING_COST_PER_DAY : ℚ := 79/10

/-- `_score_price`: score based on how close asking price is to true dealer
cost.  The locals `margin = msrp - true_cost`, `buyer_savings = msrp -
asking` and `capture_pct = buyer_savings / margin * 100` are inlined. -/
def _score_price (asking true_cost msrp : ℚ) : ℚ :=
  if true_cost ≤ 0 ∨ msrp ≤ 0 then 50
  else if msrp - true_cost ≤ 0 then 50
  else if asking ≤ true_cost then 100
  else if 80 ≤ (msrp - asking) / (msrp - true_cost) * 100 then 90
  else if 60 ≤ (msrp - asking) / (msrp - true_cost) * 100 then 75
  else if 40 ≤ (msrp - asking) / (msrp - true_cost) * 100 then 55
  else if 20 ≤ (msrp - asking) / (msrp - true_cost) * 100 then 35
  else if 0 ≤ (msrp - asking) / (msrp - true_cost) * 100 then 15
  else 5

/-- `_score_days_on_lot`: more days sitting on the lot is better for the
buyer. -/
def _score_days_on_lot (days : ℤ) : ℚ :=
  if 270 ≤ days then 100
  else if 180 ≤ days then 80
  else if 120 ≤ days then 65
  else if 90 ≤ days then 50
  else if 60 ≤ days then 35
  else if 30 ≤ days then 20
  else 10

/-- `_score_incentives`: available rebates as a percentage of MSRP.  The
local `pct = rebates / msrp * 100` is inlined. -/
def _score_incentives (rebates msrp : ℚ) : ℚ :=
  if msrp ≤ 0 then 0
  else if 15 ≤ rebates / msrp * 100 then 100
  else if 10 ≤ rebates / msrp * 100 then 85
  else if 7 ≤ rebates / msrp * 100 then 70
  else if 5 ≤ rebates / msrp * 100 then 55
  else if 3 ≤ rebates / msrp * 100 then 40
  else if 1 ≤ rebates / msrp * 100 then 25
  else 10

/-- Tail of `_score_market_supply`: the step function applied to a known
days-supply figure.  The local `ratio = days_supply / 76` is inlined. -/
def _supply_ratio_score (days_supply : ℚ) : ℚ :=
  if 4 ≤ days_supply / INDUSTRY_AVG_DAYS_SUPPLY then 100
  else if 5/2 ≤ days_supply / INDUSTRY_AVG_DAYS_SUPPLY then 85
  else if 3/2 ≤ days_supply / INDUSTRY_AVG_DAYS_SUPPLY then 65
  else if 1 ≤ days_supply / INDUSTRY_AVG_DAYS_SUPPLY then 45
  else if 7/10 ≤ days_supply / INDUSTRY_AVG_DAYS_SUPPLY then 25
  else 10

/-- Lookup part of `_score_market_supply`: exact match on the model, then
the first key (in table order) that contains the model or is contained in
it. -/
def _days_supply_lookup (model : String) : Option ℚ :=
  match lookupStr MODEL_DAYS_SUPPLY model with
  | some d => some d
  | none =>
      (MODEL_DAYS_SUPPLY.find?
        (fun p => strContains model p.1 || strContains p.1 model)).map
        (fun p => p.2)

/-- `_score_market_supply`: model's days supply vs industry average.
`make` is accepted but unused, as in the source. -/
def _score_market_supply (make model : String) : ℚ :=
  match _days_supply_lookup model with
  | none => 40
  | some d => _supply_ratio_score d

/-- Calendar date, as consumed by `_score_timing` (Python `datetime.date`). -/
structure PyDate where
  year : ℕ
  month : ℕ
  day : ℕ

/-- `_score_timing`: time of month/quarter/year. -/
def _score_timing (d : PyDate) : ℚ :=
  let s1 : ℚ := 30
  let s2 := if 26 ≤ d.day then s1 + 30 else if 20 ≤ d.day then s1 + 15 else s1
  let s3 := if d.month = 3 ∨ d.month = 6 ∨ d.month = 9 ∨ d.month = 12
            then s2 + 25 else s2
  let s4 := if d.month = 12 then s3 + 15 else s3
  min 100 s4

/-- `OfferTargets` dataclass (the `details` display dict is elided). -/
structure OfferTargets where
  aggressive : ℚ
  reasonable : ℚ
  likely : ℚ
  carrying_costs : ℚ

/-- `_calculate_offers`: three offer targets based on deal analysis. -/
def _calculate_offers (asking true_cost msrp : ℚ) (days_on_lot : ℤ)
    (rebates : ℚ) : OfferTargets :=
  let carrying_costs := (days_on_lot : ℚ) * CARRYING_COST_PER_DAY
  let pcts : ℚ × ℚ × ℚ :=
    if 300 ≤ days_on_lot then (28/100, 23/100, 20/100)
    else if 180 ≤ days_on_lot then (23/100, 18/100, 15/100)
    else if 90 ≤ days_on_lot then (17/100, 13/100, 10/100)
    else if 60 ≤ days_on_lot then (12/100, 9/100, 7/100)
    else (10/100, 7/100, 5/100)
  let aggressive := msrp * (1 - pcts.1) - rebates
  let reasonable := msrp * (1 - pcts.2.1) - rebates
  let likely := msrp * (1 - pcts.2.2) - rebates
  let floor := true_cost - carrying_costs
  { aggressive := max aggressive floor
    reasonable := max reasonable floor
    likely := max likely floor
    carrying_costs := carrying_costs }

/-- `_score_to_grade`: numeric score to letter grade. -/
def _score_to_grade (score : ℤ) : String :=
  if 90 ≤ score then "A+"
  else if 80 ≤ score then "A"
  else if 70 ≤ score then "B+"
  else if 60 ≤ score then "B"
  else if 50 ≤ score then "C+"
  else if 40 ≤ score then "C"
  else if 30 ≤ score then "D"
  else "F"

/-- The five sub-scores as reported in the result's `breakdown` dict
(each rounded to one decimal; the constant `weight`/`max` strings are
elided). -/
structure BreakdownOut where
  price : ℚ
  days_on_lot : ℚ
  incentives : ℚ
  market_supply : ℚ
  timing : ℚ

/-- The `offers` block of the score result (each field rounded to cents). -/
structure OffersOut where
  aggressive : ℚ
  reasonable : ℚ
  likely : ℚ
  carrying_costs : ℚ

/-- Result dictionary of `score_deal`. -/
structure ScoreResult where
  score : ℤ
  grade : String
  breakdown : BreakdownOut
  pricing : PricingResult
  offers : OffersOut

/-- `score_deal`: score a vehicle deal from 0-100.  The Python default
`score_date=None` means `date.today()`, an external input; the embedding
takes the date explicitly.  `get_pricing` is called without a database
session (source line 87), so its cache lookup never fires. -/
def score_deal (asking_price msrp : ℚ) (make model : String) (year : ℤ)
    (days_on_lot : ℤ) (dealer_cash rebates_available : ℚ)
    (trim : Option String) (score_date : PyDate) : ScoreResult :=
  let pricing := get_pricing year make model msrp trim dealer_cash none
  let true_cost := pricing.true_dealer_cost
  let price_score := _score_price asking_price true_cost msrp
  let days_score := _score_days_on_lot days_on_lot
  let incentive_score := _score_incentives rebates_available msrp
  let supply_score := _score_market_supply make model
  let timing_score := _score_timing score_date
  let total := price_score * (35/100) + days_score * (25/100)
    + incentive_score * (20/100) + supply_score * (12/100)
    + timing_score * (8/100)
  let total_score : ℤ := min 100 (max 0 (pyRound total))
  let offers := _calculate_offers asking_price true_cost msrp days_on_lot
    rebates_available
  { score := total_score
    grade := _score_to_grade total_score
    breakdown :=
      { price := round1 price_score
        days_on_lot := round1 days_score
        incentives := round1 incentive_score
        market_supply := round1 supply_score
        timing := round1 timing_score }
    pricing := pricing
    offers :=
      { aggressive := round2 offers.aggressive
        reasonable := round2 offers.reasonable
        likely := round2 offers.likely
        carrying_costs := round2 offers.carrying_costs } }

/-! ## Negotiation service (`backend/services/negotiation_service.py`) -/

/-- A talking point.  The templated `point`/`script` strings are display
text and are elided; the category and leverage tier are kept. -/
structure TalkingPoint where
  category : String
  leverage : String
deriving DecidableEq, Repr

/-- The `dealer_economics` block of a negotiation brief. -/
structure DealerEconomics where
  invoice_price : ℚ
  holdback : ℚ
  true_dealer_cost : ℚ
  carrying_costs : ℚ
  curtailment_estimate : ℚ
  total_cost_to_hold : ℚ
  dealer_breakeven : ℚ
  asking_vs_invoice : ℚ
  asking_vs_true_cost : ℚ
  dealer_margin_at_asking : ℚ

/-- The `offer_targets` block of a negotiation brief. -/
structure BriefOfferTargets where
  aggressive : ℚ
  reasonable : ℚ
  likely_settlement : ℚ

/-- Result dictionary of `generate_negotiation_brief`. -/
structure NegotiationBrief where
  dealer_economics : DealerEconomics
  offer_targets : BriefOfferTargets
  talking_points : List TalkingPoint
  rebates_available : ℚ

/-- `_build_talking_points`: list of negotiation talking points, generated
conditionally in fixed category order. -/
def _build_talking_points (asking_price msrp invoice_price
    true_dealer_cost : ℚ) (days_on_lot : ℤ)
    (carrying_costs curtailment rebates_available : ℚ)
    (make model : String) (year : ℤ) : List TalkingPoint :=
  (if 30 < days_on_lot then
    [⟨"Floor Plan Costs", if 90 < days_on_lot then "high" else "medium"⟩]
   else [])
  ++ (if 0 < curtailment then [⟨"Curtailment Pressure", "high"⟩] else [])
  ++ (if 0 < asking_price - invoice_price then
        [⟨"Invoice Reference", "medium"⟩]
      else [])
  ++ (if 0 < rebates_available then [⟨"Available Rebates", "medium"⟩] else [])
  ++ [⟨"Competing Offers", "high"⟩, ⟨"Closing Today", "medium"⟩]

/-- `generate_negotiation_brief`: full negotiation brief with talking
points, offer targets, and dealer cost analysis. -/
def generate_negotiation_brief (asking_price msrp invoice_price holdback
    true_dealer_cost : ℚ) (days_on_lot : ℤ) (rebates_available : ℚ)
    (make model : String) (year : ℤ) : NegotiationBrief :=
  let carrying_costs := round2 ((days_on_lot : ℚ) * CARRYING_COST_PER_DAY)
  let curtailment : ℚ :=
    if 90 < days_on_lot then
      if 180 < days_on_lot then round2 (invoice_price * (15/100))
      else if 120 < days_on_lot then round2 (invoice_price * (10/100))
      else round2 (invoice_price * (5/100))
    else 0
  let total_dealer_cost_to_hold := carrying_costs + curtailment
  let dealer_breakeven := true_dealer_cost - total_dealer_cost_to_hold
  let aggressive_offer := max dealer_breakeven (true_dealer_cost * (95/100))
  let reasonable_offer := true_dealer_cost
  let likely_settlement := round2 ((true_dealer_cost + asking_price) * (45/100))
  let asking_vs_invoice := round2 (asking_price - invoice_price)
  let asking_vs_true_cost := round2 (asking_price - true_dealer_cost)
  { dealer_economics :=
      { invoice_price := invoice_price
        holdback := holdback
        true_dealer_cost := true_dealer_cost
        carrying_costs := carrying_costs
        curtailment_estimate := curtailment
        total_cost_to_hold := total_dealer_cost_to_hold
        dealer_breakeven := round2 dealer_breakeven
        asking_vs_invoice := asking_vs_invoice
        asking_vs_true_cost := asking_vs_true_cost
        dealer_margin_at_asking := asking_vs_true_cost }
    offer_targets :=
      { aggressive := round2 aggressive_offer
        reasonable := round2 reasonable_offer
        likely_settlement := round2 likely_settlement }
    talking_points := _build_talking_points asking_price msrp invoice_price
      true_dealer_cost days_on_lot carrying_costs curtailment
      rebates_available make model year
    rebates_available := rebates_available }

/-! ## Section 179 calculator (`backend/services/section179_service.py`,
`backend/config/section179_data.py`) -/

/-- 2026 statutory Section 179 deduction limit. -/
def SECTION_179_LIMIT : ℚ := 1250000

/-- Bonus depreciation rate (100%). -/
def BONUS_DEPRECIATION_RATE : ℚ := 1

/-- Heavy SUV deduction cap. -/
def HEAVY_SUV_CAP : ℚ := 32000

/-- GVWR threshold (pounds) for enhanced deductions. -/
def GVWR_THRESHOLD : ℤ := 6000

/-- Minimum business-use percentage. -/
def BUSINESS_USE_MINIMUM : ℚ := 50

/-- IRC 280F luxury-auto first-year cap for vehicles under 6,000 lbs GVWR. -/
def LUXURY_AUTO_FIRST_YEAR_CAP : ℚ := 20400

/-- Entry of `MODEL_GVWR`. -/
structure GvwrInfo where
  gvwr_min : ℤ
  gvwr_max : ℤ
  is_pickup_6ft_bed : Bool
deriving DecidableEq, Repr

/-- `MODEL_GVWR`: GVWR data by model. -/
def MODEL_GVWR : List (String × GvwrInfo) :=
  [("F-150", ⟨6100, 7850, true⟩),
   ("F-250", ⟨9900, 10400, true⟩),
   ("F-350", ⟨11200, 14000, true⟩),
   ("F-450", ⟨14000, 16500, true⟩),
   ("Ram 1500", ⟨6500, 7100, true⟩),
   ("Ram 2500", ⟨9000, 10000, true⟩),
   ("Ram 3500", ⟨11000, 14000, true⟩),
   ("Silverado 1500", ⟨6600, 7400, true⟩),
   ("Silverado 2500HD", ⟨9500, 10650, true⟩),
   ("Silverado 3500HD", ⟨11000, 14000, true⟩),
   ("Sierra 1500", ⟨6600, 7400, true⟩),
   ("Sierra 2500HD", ⟨9500, 10650, true⟩),
   ("Sierra 3500HD", ⟨11000, 14000, true⟩),
   ("Tundra", ⟨6400, 7200, true⟩),
   ("Tacoma", ⟨5400, 6100, true⟩),
   ("Titan", ⟨7100, 8800, true⟩),
   ("Frontier", ⟨5500, 6200, true⟩)]

/-- `get_gvwr_info`: GVWR info by model name with partial-match fallback.
Python's `if not model` treats both `None` and the empty string as
missing. -/
def get_gvwr_info (model : Option String) : Option GvwrInfo :=
  match model with
  | none => none
  | some m =>
      if m = "" then none
      else
        match lookupStr MODEL_GVWR m with
        | some info => some info
        | none =>
            (MODEL_GVWR.find?
              (fun p => strContains m p.1 || strContains p.1 m)).map
              (fun p => p.2)

/-- Python truthiness of the `gvwr_override` argument (`if gvwr_override:`
is false for both `None` and `0`). -/
def _override_truthy (gvwr_override : Option ℤ) : Bool :=
  match gvwr_override with
  | some g => g ≠ 0
  | none => false

/-- GVWR value resolution of `calculate_section_179` (source lines 48-67):
a truthy override wins; otherwise the model table's `gvwr_min`; otherwise
unknown. -/
def _resolve_gvwr (model : Option String) (gvwr_override : Option ℤ) :
    Option ℤ :=
  if _override_truthy gvwr_override then gvwr_override
  else
    match get_gvwr_info model with
    | some info => some info.gvwr_min
    | none => none

/-- Pickup-bed-exemption resolution of `calculate_section_179`: looked up
from the model table in both the override and no-override branches. -/
def _resolve_is_pickup (model : Option String) : Bool :=
  match get_gvwr_info model with
  | some info => info.is_pickup_6ft_bed
  | none => false

/-- Deduction-cap selection of `calculate_section_179` (source lines
69-89). -/
def _deduction_cap (model : Option String) (gvwr_override : Option ℤ) : ℚ :=
  let gvwr := _resolve_gvwr model gvwr_override
  let is_pickup := _resolve_is_pickup model
  let exceeds_gvwr := match gvwr with
    | some g => decide (GVWR_THRESHOLD < g)
    | none => false
  if exceeds_gvwr && is_pickup then SECTION_179_LIMIT
  else if exceeds_gvwr then HEAVY_SUV_CAP
  else if gvwr.isSome then LUXURY_AUTO_FIRST_YEAR_CAP
  else SECTION_179_LIMIT

/-- The `financing` block of a Section 179 result. -/
structure FinancingDetail where
  down_payment : ℚ
  loan_amount : ℚ
  monthly_payment : ℚ
  total_interest : ℚ
  total_loan_cost : ℚ
  monthly_tax_benefit : ℚ
  effective_monthly_cost : ℚ

/-- Result dictionary of `calculate_section_179`.  The non-qualifying
early return carries only the first four fields; all others are `none`
there.  Note strings are display text and are elided to fixed labels. -/
structure Section179Result where
  qualifies : Bool
  reason : Option String
  vehicle_price : ℚ
  business_use_pct : ℚ
  gvwr : Option ℤ
  gvwr_note : Option String
  cap_note : Option String
  first_year_deduction : Option ℚ
  federal_tax_savings : Option ℚ
  state_tax_savings : Option ℚ
  total_tax_savings : Option ℚ
  effective_cost_after_tax : Option ℚ
  financing : Option FinancingDetail
  tax_year : Option ℤ
  section_179_limit : Option ℚ
  bonus_depreciation_rate : Option ℚ

/-- `calculate_section_179`: Section 179 deduction and tax savings.
Interpolated figures inside the note strings are elided. -/
def calculate_section_179 (vehicle_price business_use_pct tax_bracket : ℚ)
    (state_tax_rate down_payment loan_interest_rate : ℚ)
    (loan_term_months : ℤ) (model : Option String)
    (gvwr_override : Option ℤ) : Section179Result :=
  if business_use_pct < BUSINESS_USE_MINIMUM then
    { qualifies := false
      reason := some "Business use must be at least 50%."
      vehicle_price := vehicle_price
      business_use_pct := business_use_pct
      gvwr := none, gvwr_note := none, cap_note := none
      first_year_deduction := none, federal_tax_savings := none
      state_tax_savings := none, total_tax_savings := none
      effective_cost_after_tax := none, financing := none
      tax_year := none, section_179_limit := none
      bonus_depreciation_rate := none }
  else
    let gvwr := _resolve_gvwr model gvwr_override
    let gvwr_note :=
      if _override_truthy gvwr_override then "Using manually entered GVWR"
      else if (get_gvwr_info model).isSome then "Estimated GVWR range"
      else "Model not in database. Enter GVWR manually for accurate calculation."
    let deduction_cap := _deduction_cap model gvwr_override
    let business_portion := vehicle_price * (business_use_pct / 100)
    let first_year_deduction :=
      min business_portion (min deduction_cap SECTION_179_LIMIT)
    let federal_savings := first_year_deduction * (tax_bracket / 100)
    let state_savings := first_year_deduction * (state_tax_rate / 100)
    let total_tax_savings := federal_savings + state_savings
    let effective_cost := vehicle_price - total_tax_savings
    let financing : Option FinancingDetail :=
      if 0 < loan_interest_rate ∧ 0 < loan_term_months then
        let loan_amount := vehicle_price - down_payment
        if 0 < loan_amount then
          let monthly_rate := loan_interest_rate / 100 / 12
          let growth := (1 + monthly_rate) ^ loan_term_months.toNat
          let monthly_payment :=
            loan_amount * (monthly_rate * growth) / (growth - 1)
          let total_interest :=
            monthly_payment * (loan_term_months : ℚ) - loan_amount
          let total_loan_cost := loan_amount + total_interest
          let monthly_tax_benefit := total_tax_savings / 12
          some
            { down_payment := round2 down_payment
              loan_amount := round2 loan_amount
              monthly_payment := round2 monthly_payment
              total_interest := round2 total_interest
              total_loan_cost := round2 total_loan_cost
              monthly_tax_benefit := round2 monthly_tax_benefit
              effective_monthly_cost :=
                round2 (monthly_payment - monthly_tax_benefit) }
        else none
      else if 0 < loan_term_months ∧ down_payment < vehicle_price then
        let loan_amount := vehicle_price - down_payment
        if 0 < loan_amount then
          let monthly_payment := loan_amount / (loan_term_months : ℚ)
          let monthly_tax_benefit := total_tax_savings / 12
          some
            { down_payment := round2 down_payment
              loan_amount := round2 loan_amount
              monthly_payment := round2 monthly_payment
              total_interest := 0
              total_loan_cost := round2 loan_amount
              monthly_tax_benefit := round2 monthly_tax_benefit
              effective_monthly_cost :=
                round2 (monthly_payment - monthly_tax_benefit) }
        else none
      else none
    { qualifies := true
      reason := none
      vehicle_price := vehicle_price
      business_use_pct := business_use_pct
      gvwr := gvwr
      gvwr_note := some gvwr_note
      cap_note := some "cap selection note"
      first_year_deduction := some (round2 first_year_deduction)
      federal_tax_savings := some (round2 federal_savings)
      state_tax_savings := some (round2 state_savings)
      total_tax_savings := some (round2 total_tax_savings)
      effective_cost_after_tax := some (round2 effective_cost)
      financing := financing
      tax_year := some 2026
      section_179_limit := some SECTION_179_LIMIT
      bonus_depreciation_rate := some BONUS_DEPRECIATION_RATE }

/-! ## Claim theorems -/

/-- C1: for every input to `score_deal`, the returned `score` is an integer
in the closed interval [0, 100]. -/
theorem score_deal_score_in_range (asking_price msrp : ℚ)
    (make model : String) (year days_on_lot : ℤ)
    (dealer_cash rebates_available : ℚ) (trim : Option String)
    (score_date : PyDate) :
    0 ≤ (score_deal asking_price msrp make model year days_on_lot dealer_cash
      rebates_available trim score_date).score ∧
    (score_deal asking_price msrp make model year days_on_lot dealer_cash
      rebates_available trim score_date).score ≤ 100 := by
  simp only [score_deal]
  omega

/-- C2 counterexample: the claim predicts `_score_price = 100` whenever
`asking ≤ true_cost`, `true_cost > 0` and `msrp > 0`, but at
`asking = 50`, `true_cost = 100`, `msrp = 50` the code returns the
neutral 50 (the `margin ≤ 0` guard fires first). -/
theorem score_price_claim_counterexample :
    (0:ℚ) < 100 ∧ (0:ℚ) < 50 ∧ (50:ℚ) ≤ 100 ∧
    _score_price 50 100 50 = 50 ∧ (50:ℚ) ≠ 100 := by
  refine ⟨by norm_num, by norm_num, by norm_num, ?_, by norm_num⟩
  norm_num [_score_price]

/-- C2 amended: `_score_price` returns 50 when `true_cost ≤ 0`, `msrp ≤ 0`
or `msrp ≤ true_cost` (no positive margin); only when
`0 < true_cost < msrp` do the perfect-score rule (`asking ≤ true_cost` to
100) and the capture-percentage tiers (at least 80/60/40/20/0 percent to
90/75/55/35/15, negative to 5) apply. -/
theorem score_price_tiers (asking true_cost msrp : ℚ) :
    ((true_cost ≤ 0 ∨ msrp ≤ 0) → _score_price asking true_cost msrp = 50) ∧
    (0 < true_cost → 0 < msrp → msrp ≤ true_cost →
      _score_price asking true_cost msrp = 50) ∧
    (0 < true_cost → 0 < msrp → true_cost < msrp →
      (asking ≤ true_cost → _score_price asking true_cost msrp = 100) ∧
      (true_cost < asking →
        (80 ≤ (msrp - asking) / (msrp - true_cost) * 100 →
          _score_price asking true_cost msrp = 90) ∧
        (60 ≤ (msrp - asking) / (msrp - true_cost) * 100 →
          (msrp - asking) / (msrp - true_cost) * 100 < 80 →
          _score_price asking true_cost msrp = 75) ∧
        (40 ≤ (msrp - asking) / (msrp - true_cost) * 100 →
          (msrp - asking) / (msrp - true_cost) * 100 < 60 →
          _score_price asking true_cost msrp = 55) ∧
        (20 ≤ (msrp - asking) / (msrp - true_cost) * 100 →
          (msrp - asking) / (msrp - true_cost) * 100 < 40 →
          _score_price asking true_cost msrp = 35) ∧
        (0 ≤ (msrp - asking) / (msrp - true_cost) * 100 →
          (msrp - asking) / (msrp - true_cost) * 100 < 20 →
          _score_price asking true_cost msrp = 15) ∧
        ((msrp - asking) / (msrp - true_cost) * 100 < 0 →
          _score_price asking true_cost msrp = 5))) := by
  unfold _score_price
  refine ⟨?_, ?_, ?_⟩
  · intro h
    rw [if_pos h]
  · intro h1 h2 h3
    rw [if_neg (by push_neg; exact ⟨h1, h2⟩), if_pos (by linarith)]
  · intro h1 h2 h3
    rw [if_neg (by push_neg; exact ⟨h1, h2⟩), if_neg (by push_neg; linarith)]
    constructor
    · intro ha
      rw [if_pos ha]
    · intro ha
      rw [if_neg (by push_neg; exact ha)]
      refine ⟨fun hc => by rw [if_pos hc],
        fun hc hc' => ?_, fun hc hc' => ?_, fun hc hc' => ?_,
        fun hc hc' => ?_, fun hc => ?_⟩
      · rw [if_neg (by linarith), if_pos hc]
      · rw [if_neg (by linarith), if_neg (by linarith), if_pos hc]
      · rw [if_neg (by linarith), if_neg (by linarith), if_neg (by linarith),
          if_pos hc]
      · rw [if_neg (by linarith), if_neg (by linarith), if_neg (by linarith),
          if_neg (by linarith), if_pos hc]
      · rw [if_neg (by linarith), if_neg (by linarith), if_neg (by linarith),
          if_neg (by linarith), if_neg (by linarith)]

/-- C2 witness: a concrete evaluation through `score_price_tiers`:
asking 60000 against true cost 56550 and MSRP 65000 captures about 59
percent of the margin, landing in the 55-point tier. -/
theorem score_price_tiers_witness : _score_price 60000 56550 65000 = 55 := by
  have h := (score_price_tiers 60000 56550 65000).2.2
    (by norm_num) (by norm_num) (by norm_num)
  exact h.2 (by norm_num) |>.2.2.1 (by norm_num) (by norm_num)

/-- C4: in every `get_pricing` result the identities
`true_dealer_cost = invoice_price - holdback - dealer_cash` and
`margin_from_msrp = msrp - true_dealer_cost` hold exactly up to the cent
rounding of each monetary field (half a cent per rounded field). -/
theorem get_pricing_invariants (year : ℤ) (make model : String) (msrp : ℚ)
    (trim : Option String) (dealer_cash : ℚ)
    (cached : Option CachedInvoice) :
    |(get_pricing year make model msrp trim dealer_cash cached).true_dealer_cost -
      ((get_pricing year make model msrp trim dealer_cash cached).invoice_price -
       (get_pricing year make model msrp trim dealer_cash cached).holdback -
       (get_pricing year make model msrp trim dealer_cash cached).dealer_cash)| ≤ 3/200 ∧
    |(get_pricing year make model msrp trim dealer_cash cached).margin_from_msrp -
      ((get_pricing year make model msrp trim dealer_cash cached).msrp -
       (get_pricing year make model msrp trim dealer_cash cached).true_dealer_cost)| ≤ 1/100 := by
  simp only [get_pricing]
  generalize ((cached.map fun c => c.invoice_price).getD
    (estimate_invoice make model msrp)) = I
  generalize ((cached.bind fun c => c.holdback_amount).getD
    (get_holdback make msrp I)) = H
  have h1 := abs_round2_sub_le (I - H - dealer_cash)
  have h2 := abs_round2_sub_le I
  have h3 := abs_round2_sub_le H
  have h4 := abs_round2_sub_le (msrp - (I - H - dealer_cash))
  rw [abs_le] at h1 h2 h3 h4
  constructor
  · rw [abs_le]
    constructor <;> linarith
  · rw [abs_le]
    constructor <;> linarith

/-- Helper for C3: subtracting an exact multiple of a cent from an
already-rounded amount stays below `round2` of anything above it. -/
theorem round2_sub_cents_le_round2 (raw c x : ℚ) (m : ℤ)
    (hc : c = (m : ℚ) / 100) (h : round2 raw - c ≤ x) :
    round2 raw - c ≤ round2 x := by
  have hk : round2 raw - c = ((pyRound (raw * 100) - m : ℤ) : ℚ) / 100 := by
    unfold round2
    rw [hc]
    push_cast
    ring
  rw [hk] at h ⊢
  exact round2_ge_cent h

/-- Helper for C3: each raw offer target of `_calculate_offers` is at least
the floor `true_cost - days_on_lot * 7.90`. -/
theorem calculate_offers_ge_floor (asking true_cost msrp : ℚ)
    (days_on_lot : ℤ) (rebates : ℚ) :
    true_cost - (days_on_lot : ℚ) * CARRYING_COST_PER_DAY ≤
      (_calculate_offers asking true_cost msrp days_on_lot rebates).aggressive ∧
    true_cost - (days_on_lot : ℚ) * CARRYING_COST_PER_DAY ≤
      (_calculate_offers asking true_cost msrp days_on_lot rebates).reasonable ∧
    true_cost - (days_on_lot : ℚ) * CARRYING_COST_PER_DAY ≤
      (_calculate_offers asking true_cost msrp days_on_lot rebates).likely :=
  ⟨le_max_right _ _, le_max_right _ _, le_max_right _ _⟩

/-- C3: every offer target returned by `score_deal` (aggressive, reasonable,
likely) is at least the floor `true_dealer_cost - days_on_lot * 7.90`. -/
theorem score_deal_offers_above_floor (asking_price msrp : ℚ)
    (make model : String) (year days_on_lot : ℤ)
    (dealer_cash rebates_available : ℚ) (trim : Option String)
    (score_date : PyDate) :
    (score_deal asking_price msrp make model year days_on_lot dealer_cash
        rebates_available trim score_date).pricing.true_dealer_cost -
      (days_on_lot : ℚ) * CARRYING_COST_PER_DAY ≤
      (score_deal asking_price msrp make model year days_on_lot dealer_cash
        rebates_available trim score_date).offers.aggressive ∧
    (score_deal asking_price msrp make model year days_on_lot dealer_cash
        rebates_available trim score_date).pricing.true_dealer_cost -
      (days_on_lot : ℚ) * CARRYING_COST_PER_DAY ≤
      (score_deal asking_price msrp make model year days_on_lot dealer_cash
        rebates_available trim score_date).offers.reasonable ∧
    (score_deal asking_price msrp make model year days_on_lot dealer_cash
        rebates_available trim score_date).pricing.true_dealer_cost -
      (days_on_lot : ℚ) * CARRYING_COST_PER_DAY ≤
      (score_deal asking_price msrp make model year days_on_lot dealer_cash
        rebates_available trim score_date).offers.likely := by
  simp only [score_deal, get_pricing, _calculate_offers]
  have hc : (days_on_lot : ℚ) * CARRYING_COST_PER_DAY =
      ((790 * days_on_lot : ℤ) : ℚ) / 100 := by
    unfold CARRYING_COST_PER_DAY
    push_cast
    ring
  refine ⟨round2_sub_cents_le_round2 _ _ _ _ hc (le_max_right _ _),
    round2_sub_cents_le_round2 _ _ _ _ hc (le_max_right _ _),
    round2_sub_cents_le_round2 _ _ _ _ hc (le_max_right _ _)⟩

/-- Every entry of the GVWR table is flagged as a pickup with a 6ft+ bed,
so any successful model lookup yields `is_pickup_6ft_bed = true`. -/
theorem gvwr_lookup_pickup {m : String} {info : GvwrInfo}
    (h : get_gvwr_info (some m) = some info) :
    info.is_pickup_6ft_bed = true := by
  have hall : ∀ p ∈ MODEL_GVWR, p.2.is_pickup_6ft_bed = true := by decide
  simp only [get_gvwr_info] at h
  by_cases hm : m = ""
  · rw [if_pos hm] at h
    exact absurd h (by simp)
  · rw [if_neg hm] at h
    cases hfind : lookupStr MODEL_GVWR m with
    | some i =>
        rw [hfind] at h
        have h2 : some i = some info := h
        obtain rfl : i = info := Option.some.inj h2
        unfold lookupStr at hfind
        obtain ⟨p, hp, rfl⟩ := Option.map_eq_some'.mp hfind
        exact hall p (List.mem_of_find?_eq_some hp)
    | none =>
        rw [hfind] at h
        have h2 : Option.map (fun p => p.2)
            (List.find? (fun p => strContains m p.1 || strContains p.1 m)
              MODEL_GVWR) = some info := h
        obtain ⟨p, hp, rfl⟩ := Option.map_eq_some'.mp h2
        exact hall p (List.mem_of_find?_eq_some hp)

/-- C5: with business use at least 50 percent, the Section 179 deduction
cap is the statutory limit for a GVWR of 7000 with a model found in the
pickup table, the 32,000 heavy-SUV cap for a GVWR of 7000 with an
unrecognized model (override only), and the 20,400 luxury-auto cap for a
GVWR of 5500 regardless of model; the first-year deduction is
`min(vehicle_price * business_use_pct / 100, cap, statutory limit)`
rounded to cents. -/
theorem section179_cap_selection (vehicle_price business_use_pct tax_bracket
    state_tax_rate down_payment loan_interest_rate : ℚ)
    (loan_term_months : ℤ) (model : Option String)
    (gvwr_override : Option ℤ) (m : String) :
    ((get_gvwr_info (some m)).isSome →
      _deduction_cap (some m) (some 7000) = SECTION_179_LIMIT) ∧
    (get_gvwr_info model = none →
      _deduction_cap model (some 7000) = HEAVY_SUV_CAP) ∧
    (_deduction_cap model (some 5500) = LUXURY_AUTO_FIRST_YEAR_CAP) ∧
    (BUSINESS_USE_MINIMUM ≤ business_use_pct →
      (calculate_section_179 vehicle_price business_use_pct tax_bracket
        state_tax_rate down_payment loan_interest_rate loan_term_months
        model gvwr_override).first_year_deduction =
      some (round2 (min (vehicle_price * (business_use_pct / 100))
        (min (_deduction_cap model gvwr_override) SECTION_179_LIMIT)))) := by
  refine ⟨?_, ?_, ?_, ?_⟩
  · intro hsome
    obtain ⟨info, hinfo⟩ := Option.isSome_iff_exists.mp hsome
    have hpickup := gvwr_lookup_pickup hinfo
    unfold _deduction_cap _resolve_gvwr _resolve_is_pickup _override_truthy
    rw [hinfo]
    simp [hpickup, GVWR_THRESHOLD]
  · intro hnone
    unfold _deduction_cap _resolve_gvwr _resolve_is_pickup _override_truthy
    rw [hnone]
    simp [GVWR_THRESHOLD]
  · unfold _deduction_cap _resolve_gvwr _override_truthy
    cases hinfo : get_gvwr_info model with
    | some info => simp [GVWR_THRESHOLD]
    | none => simp [GVWR_THRESHOLD]
  · intro h
    unfold calculate_section_179
    rw [if_neg (not_lt.mpr h)]

/-- C5 witness: concrete cap selections and a concrete deduction: a
100,000-dollar F-250 at 100 percent business use deducts the full price
under the statutory limit; an unrecognized model at GVWR 7000 is capped
at 32,000; GVWR 5500 is capped at 20,400. -/
theorem section179_cap_selection_witness :
    _deduction_cap (some "F-250") (some 7000) = SECTION_179_LIMIT ∧
    _deduction_cap (some "Cybertruck") (some 7000) = HEAVY_SUV_CAP ∧
    _deduction_cap (some "F-250") (some 5500) = LUXURY_AUTO_FIRST_YEAR_CAP ∧
    (calculate_section_179 100000 100 37 0 0 0 60 (some "F-250")
      (some 7000)).first_year_deduction = some 100000 := by
  have h1 := section179_cap_selection 100000 100 37 0 0 0 60
    (some "F-250") (some 7000) "F-250"
  have h2 := section179_cap_selection 100000 100 37 0 0 0 60
    (some "Cybertruck") (some 7000) "F-250"
  refine ⟨h1.1 (by decide), h2.2.1 (by decide), h1.2.2.1, ?_⟩
  rw [h1.2.2.2 (by norm_num [BUSINESS_USE_MINIMUM]), h1.1 (by decide)]
  have hmin : min ((100000:ℚ) * (100/100)) (min SECTION_179_LIMIT
      SECTION_179_LIMIT) = ((100000:ℤ):ℚ) := by
    norm_num [SECTION_179_LIMIT, min_def]
  rw [hmin, round2_int]
  norm_num

/-- C6: with business use below 50 percent, `calculate_section_179`
returns a structured non-qualification (no exception): `qualifies` is
false, a reason is present, and no deduction or tax-savings field is
populated (in particular none carries a nonzero value). -/
theorem section179_low_business_use (vehicle_price business_use_pct
    tax_bracket state_tax_rate down_payment loan_interest_rate : ℚ)
    (loan_term_months : ℤ) (model : Option String)
    (gvwr_override : Option ℤ) (h : business_use_pct < 50) :
    (calculate_section_179 vehicle_price business_use_pct tax_bracket
      state_tax_rate down_payment loan_interest_rate loan_term_months model
      gvwr_override).qualifies = false ∧
    (calculate_section_179 vehicle_price business_use_pct tax_bracket
      state_tax_rate down_payment loan_interest_rate loan_term_months model
      gvwr_override).reason.isSome = true ∧
    (calculate_section_179 vehicle_price business_use_pct tax_bracket
      state_tax_rate down_payment loan_interest_rate loan_term_months model
      gvwr_override).first_year_deduction = none ∧
    (calculate_section_179 vehicle_price business_use_pct tax_bracket
      state_tax_rate down_payment loan_interest_rate loan_term_months model
      gvwr_override).federal_tax_savings = none ∧
    (calculate_section_179 vehicle_price business_use_pct tax_bracket
      state_tax_rate down_payment loan_interest_rate loan_term_months model
      gvwr_override).state_tax_savings = none ∧
    (calculate_section_179 vehicle_price business_use_pct tax_bracket
      state_tax_rate down_payment loan_interest_rate loan_term_months model
      gvwr_override).total_tax_savings = none ∧
    (calculate_section_179 vehicle_price business_use_pct tax_bracket
      state_tax_rate down_payment loan_interest_rate loan_term_months model
      gvwr_override).effective_cost_after_tax = none ∧
    (calculate_section_179 vehicle_price business_use_pct tax_bracket
      state_tax_rate down_payment loan_interest_rate loan_term_months model
      gvwr_override).financing = none := by
  unfold calculate_section_179
  rw [if_pos (show business_use_pct < BUSINESS_USE_MINIMUM from h)]
  exact ⟨rfl, rfl, rfl, rfl, rfl, rfl, rfl, rfl⟩

/-- C6 witness: a concrete 30-percent-business-use request does not
qualify and carries no deduction or savings figures. -/
theorem section179_low_business_use_witness :
    (30:ℚ) < 50 ∧
    (calculate_section_179 50000 30 37 0 0 0 60 none none).qualifies = false ∧
    (calculate_section_179 50000 30 37 0 0 0 60 none none).reason.isSome = true ∧
    (calculate_section_179 50000 30 37 0 0 0 60 none none).first_year_deduction = none ∧
    (calculate_section_179 50000 30 37 0 0 0 60 none none).financing = none := by
  have h := section179_low_business_use 50000 30 37 0 0 0 60 none none
    (by norm_num)
  exact ⟨by norm_num, h.1, h.2.1, h.2.2.1, h.2.2.2.2.2.2.2⟩

/-- C7 counterexample: a model absent from the days-supply table (no exact
or substring match) scores 40, while a model whose days supply equals the
industry average of 76 days (ratio 1.0) scores 45, so the fallback is not
the 76-day tier score. -/
theorem market_supply_unknown_counterexample :
    _days_supply_lookup "Zzz" = none ∧
    _score_market_supply "Honda" "Zzz" = 40 ∧
    _supply_ratio_score 76 = 45 ∧ (40:ℚ) ≠ 45 := by
  have hlk : _days_supply_lookup "Zzz" = none := rfl
  refine ⟨hlk, ?_, ?_, by norm_num⟩
  · unfold _score_market_supply
    rw [hlk]
  · norm_num [_supply_ratio_score, INDUSTRY_AVG_DAYS_SUPPLY]

/-- C7 amended: for every make and model with no exact and no substring
match in the days-supply table, the market-supply subscore is the fixed
fallback 40 — which differs from the 45 a model at the industry-average
76-day supply would score. -/
theorem market_supply_unknown_default (make model : String)
    (h : _days_supply_lookup model = none) :
    _score_market_supply make model = 40 ∧
    _score_market_supply make model ≠ _supply_ratio_score 76 := by
  have h40 : _score_market_supply make model = 40 := by
    unfold _score_market_supply
    rw [h]
  refine ⟨h40, ?_⟩
  rw [h40]
  norm_num [_supply_ratio_score, INDUSTRY_AVG_DAYS_SUPPLY]

/-- C7 witness: the unknown model "Zzz" hits the fallback path. -/
theorem market_supply_unknown_default_witness :
    _score_market_supply "Honda" "Zzz" = 40 ∧
    _score_market_supply "Honda" "Zzz" ≠ _supply_ratio_score 76 :=
  market_supply_unknown_default "Honda" "Zzz" rfl

/-- C8 counterexample: a listing with a cached invoice/holdback pair
(60000/1000 for the 2026 Ford F-250) produces a "cached" block from
`get_pricing`, but `score_deal` on the same listing reports "estimated"
pricing — the cached block is not reproduced. -/
theorem score_deal_cached_counterexample :
    (get_pricing 2026 "Ford" "F-250" 65000 none 0
      (some ⟨60000, some 1000⟩)).source = "cached" ∧
    (score_deal 60000 65000 "Ford" "F-250" 2026 5 0 0 none
      ⟨2026, 6, 15⟩).pricing.source = "estimated" ∧
    (score_deal 60000 65000 "Ford" "F-250" 2026 5 0 0 none
      ⟨2026, 6, 15⟩).pricing ≠
      get_pricing 2026 "Ford" "F-250" 65000 none 0 (some ⟨60000, some 1000⟩) := by
  refine ⟨rfl, rfl, ?_⟩
  intro hcontra
  have h1 : (score_deal 60000 65000 "Ford" "F-250" 2026 5 0 0 none
      ⟨2026, 6, 15⟩).pricing.source = "estimated" := rfl
  rw [hcontra] at h1
  have h2 : (get_pricing 2026 "Ford" "F-250" 65000 none 0
      (some ⟨60000, some 1000⟩)).source = "cached" := rfl
  rw [h2] at h1
  exact absurd h1 (by decide)

/-- C8 amended: `score_deal` always computes its pricing block with no
cached pair (source "estimated"); a cached invoice/holdback pair is used
verbatim, with source "cached", only when `get_pricing` itself is called
with it. -/
theorem score_deal_pricing_always_estimated (asking_price msrp : ℚ)
    (make model : String) (year days_on_lot : ℤ)
    (dealer_cash rebates_available : ℚ) (trim : Option String)
    (score_date : PyDate) :
    (score_deal asking_price msrp make model year days_on_lot dealer_cash
      rebates_available trim score_date).pricing =
      get_pricing year make model msrp trim dealer_cash none ∧
    (score_deal asking_price msrp make model year days_on_lot dealer_cash
      rebates_available trim score_date).pricing.source = "estimated" ∧
    ∀ c : CachedInvoice,
      (get_pricing year make model msrp trim dealer_cash (some c)).source =
        "cached" :=
  ⟨rfl, rfl, fun _ => rfl⟩

/-! ## Concrete evaluations shared by the scenario claims -/

/-- Invoice estimate for a 65,000-dollar Ram 2500 (mid tier, 90%). -/
theorem eval_invoice_ram : estimate_invoice "Ram" "Ram 2500" 65000 = 58500 := by
  show round2 (65000 * (if (65000:ℚ) ≤ 48000 then 92/100
    else if (72000:ℚ) ≤ 65000 then 88/100 else 90/100)) = 58500
  rw [if_neg (by norm_num), if_neg (by norm_num)]
  rw [show (65000:ℚ) * (90/100) = ((58500:ℤ):ℚ) by norm_num, round2_int]
  norm_num

/-- Holdback for Ram at 65,000 MSRP (3% of MSRP). -/
theorem eval_holdback_ram : get_holdback "Ram" 65000 58500 = 1950 := by
  show round2 ((65000:ℚ) * (3/100)) = 1950
  rw [show (65000:ℚ) * (3/100) = ((1950:ℤ):ℚ) by norm_num, round2_int]
  norm_num

/-- True dealer cost of the estimated Ram 2500 pricing. -/
theorem eval_truecost_ram :
    (get_pricing 2026 "Ram" "Ram 2500" 65000 none 0 none).true_dealer_cost =
      56550 := by
  show round2 (estimate_invoice "Ram" "Ram 2500" 65000 -
    get_holdback "Ram" 65000 (estimate_invoice "Ram" "Ram 2500" 65000) - 0) =
    56550
  rw [eval_invoice_ram, eval_holdback_ram]
  rw [show (58500:ℚ) - 1950 - 0 = ((56550:ℤ):ℚ) by norm_num, round2_int]
  norm_num

/-- Invoice estimate for a 65,000-dollar Ford F-250 (mid tier, 91%). -/
theorem eval_invoice_f250 : estimate_invoice "Ford" "F-250" 65000 = 59150 := by
  show round2 (65000 * (if (65000:ℚ) ≤ 50000 then 93/100
    else if (75000:ℚ) ≤ 65000 then 89/100 else 91/100)) = 59150
  rw [if_neg (by norm_num), if_neg (by norm_num)]
  rw [show (65000:ℚ) * (91/100) = ((59150:ℤ):ℚ) by norm_num, round2_int]
  norm_num

/-- Holdback for Ford at 65,000 MSRP (3% of MSRP). -/
theorem eval_holdback_ford : get_holdback "Ford" 65000 59150 = 1950 := by
  show round2 ((65000:ℚ) * (3/100)) = 1950
  rw [show (65000:ℚ) * (3/100) = ((1950:ℤ):ℚ) by norm_num, round2_int]
  norm_num

/-- True dealer cost of the estimated Ford F-250 pricing. -/
theorem eval_truecost_f250 :
    (get_pricing 2026 "Ford" "F-250" 65000 none 0 none).true_dealer_cost =
      57200 := by
  show round2 (estimate_invoice "Ford" "F-250" 65000 -
    get_holdback "Ford" 65000 (estimate_invoice "Ford" "F-250" 65000) - 0) =
    57200
  rw [eval_invoice_f250, eval_holdback_ford]
  rw [show (59150:ℚ) - 1950 - 0 = ((57200:ℤ):ℚ) by norm_num, round2_int]
  norm_num

/-- At asking price equal to MSRP with a positive margin, the price
subscore is the 0-percent-capture tier, 15. -/
theorem score_price_at_msrp {t m : ℚ} (h0 : 0 < t) (h1 : t < m) :
    _score_price m t m = 15 := by
  have hm : 0 < m := lt_trans h0 h1
  unfold _score_price
  simp only [sub_self, zero_div, zero_mul]
  rw [if_neg (by push_neg; constructor <;> linarith),
    if_neg (by linarith), if_neg (by linarith), if_neg (by norm_num),
    if_neg (by norm_num), if_neg (by norm_num), if_neg (by norm_num),
    if_pos le_rfl]

/-- With zero rebates and positive MSRP the incentive subscore is 10. -/
theorem score_incentives_zero {m : ℚ} (hm : 0 < m) :
    _score_incentives 0 m = 10 := by
  unfold _score_incentives
  simp only [zero_div, zero_mul]
  rw [if_neg (by linarith), if_neg (by norm_num), if_neg (by norm_num),
    if_neg (by norm_num), if_neg (by norm_num), if_neg (by norm_num),
    if_neg (by norm_num)]

/-- The days-on-lot subscore of a 5-day-old listing. -/
theorem eval_days5 : _score_days_on_lot 5 = 10 := by
  norm_num [_score_days_on_lot]

/-- The market-supply subscore never exceeds 100. -/
theorem score_market_supply_le_100 (make model : String) :
    _score_market_supply make model ≤ 100 := by
  unfold _score_market_supply
  cases _days_supply_lookup model with
  | none => norm_num
  | some d =>
      show _supply_ratio_score d ≤ 100
      unfold _supply_ratio_score
      split_ifs <;> norm_num

/-- The timing subscore never exceeds 100. -/
theorem score_timing_le_100 (d : PyDate) : _score_timing d ≤ 100 :=
  min_le_left _ _

/-- The Ram 2500 market-supply subscore: 318 days supply is more than
four times the 76-day industry average. -/
theorem eval_supply_ram : _score_market_supply "Ram" "Ram 2500" = 100 := by
  have h : _days_supply_lookup "Ram 2500" = some 318 := rfl
  unfold _score_market_supply
  rw [h]
  norm_num [_supply_ratio_score, INDUSTRY_AVG_DAYS_SUPPLY]

/-- Timing subscore on 2025-12-28: month-end, quarter-end and year-end
bonuses saturate the 100 cap. -/
theorem eval_timing_dec28 : _score_timing ⟨2025, 12, 28⟩ = 100 := by
  norm_num [_score_timing]

/-- C9 counterexample: a fresh (5-day) Ram 2500 listed at its 65,000 MSRP
with no rebates, scored on 2025-12-28, gets price 15, days 10,
incentives 10, market supply 100 and timing 100, for a weighted total of
29.75, which rounds to exactly 30 — not strictly below 30. -/
theorem fresh_listing_counterexample :
    (0:ℚ) < 65000 ∧
    ¬ ((score_deal 65000 65000 "Ram" "Ram 2500" 2026 5 0 0 none
      ⟨2025, 12, 28⟩).score < 30) := by
  have hsc : (score_deal 65000 65000 "Ram" "Ram 2500" 2026 5 0 0 none
      ⟨2025, 12, 28⟩).score = 30 := by
    simp only [score_deal]
    rw [eval_truecost_ram, score_price_at_msrp (by norm_num) (by norm_num),
      eval_days5, score_incentives_zero (by norm_num), eval_supply_ram,
      eval_timing_dec28]
    rw [show (15:ℚ) * (35/100) + 10 * (25/100) + 10 * (20/100) +
      100 * (12/100) + 100 * (8/100) = 119/4 by norm_num]
    have hpr : pyRound (119/4 : ℚ) = 30 := by
      norm_num [pyRound]
    rw [hpr]
    omega
  refine ⟨by norm_num, ?_⟩
  rw [hsc]
  omega

/-- C9 amended: for a fresh listing (5 days) priced at MSRP with zero
rebates and zero dealer cash, provided the estimated true dealer cost is
nondegenerate (strictly between 0 and MSRP), the score is at most 30 for
every make, model, year and scoring date; 30 itself is attained (see the
counterexample), so "strictly below 30" must weaken to "at most 30". -/
theorem fresh_listing_score_le_30 (msrp : ℚ) (make model : String)
    (year : ℤ) (trim : Option String) (d : PyDate)
    (h0 : 0 < (get_pricing year make model msrp trim 0 none).true_dealer_cost)
    (h1 : (get_pricing year make model msrp trim 0 none).true_dealer_cost <
      msrp) :
    (score_deal msrp msrp make model year 5 0 0 trim d).score ≤ 30 := by
  have hm : 0 < msrp := lt_trans h0 h1
  simp only [score_deal]
  rw [score_price_at_msrp h0 h1, eval_days5, score_incentives_zero hm]
  generalize hs : _score_market_supply make model = s
  generalize htm : _score_timing d = tm
  have hsup : s ≤ 100 := hs ▸ score_market_supply_le_100 make model
  have htim : tm ≤ 100 := htm ▸ score_timing_le_100 d
  have htot : (15:ℚ) * (35/100) + 10 * (25/100) + 10 * (20/100) +
      s * (12/100) + tm * (8/100) < 30 := by linarith
  have hfl : ⌊(15:ℚ) * (35/100) + 10 * (25/100) + 10 * (20/100) +
      s * (12/100) + tm * (8/100)⌋ < (30:ℤ) :=
    Int.floor_lt.mpr (by push_cast; linarith)
  have hpr := pyRound_le_floor_add_one ((15:ℚ) * (35/100) + 10 * (25/100) +
    10 * (20/100) + s * (12/100) + tm * (8/100))
  omega

/-- C9 witness: the fresh Ford F-250 at 65,000 MSRP satisfies the
nondegeneracy hypotheses and scores at most 30. -/
theorem fresh_listing_score_le_30_witness :
    0 < (get_pricing 2026 "Ford" "F-250" 65000 none 0 none).true_dealer_cost ∧
    (get_pricing 2026 "Ford" "F-250" 65000 none 0 none).true_dealer_cost <
      65000 ∧
    (score_deal 65000 65000 "Ford" "F-250" 2026 5 0 0 none
      ⟨2026, 6, 15⟩).score ≤ 30 := by
  refine ⟨by rw [eval_truecost_f250]; norm_num,
    by rw [eval_truecost_f250]; norm_num, ?_⟩
  exact fresh_listing_score_le_30 65000 "Ford" "F-250" 2026 none ⟨2026, 6, 15⟩
    (by rw [eval_truecost_f250]; norm_num)
    (by rw [eval_truecost_f250]; norm_num)

/-- C10: the negotiation brief's offer targets are not ordered like the
deal scorer's: with asking price equal to the (positive) true dealer
cost, the likely settlement (45% of cost plus asking) is strictly below
the reasonable offer (the true cost itself). -/
theorem negotiation_likely_below_reasonable :
    (0:ℚ) < 50000 ∧
    (generate_negotiation_brief 50000 55000 52000 1560 50000 10 0 "Ford"
      "F-250" 2026).offer_targets.likely_settlement <
    (generate_negotiation_brief 50000 55000 52000 1560 50000 10 0 "Ford"
      "F-250" 2026).offer_targets.reasonable := by
  refine ⟨by norm_num, ?_⟩
  show round2 (round2 (((50000:ℚ) + 50000) * (45/100))) < round2 (50000:ℚ)
  rw [show ((50000:ℚ) + 50000) * (45/100) = ((45000:ℤ):ℚ) by norm_num,
    round2_int, round2_int,
    show (50000:ℚ) = ((50000:ℤ):ℚ) by norm_num, round2_int]
  norm_num

end DealHawk
